import Mathlib

/-!
GPX dashboard: the polling loop of `static/index.js`.

A shallow embedding of the methods of the Vue application that carry
behaviour: `request` (the XMLHttpRequest wrapper), the `while (true)` loop of
`main`, the chart objects created by `buildCharts`, and the way `mounted`
starts the loop.

Modelling conventions.

* A decoded response is a JSON object of the shape the endpoint returns: an
  optional `errors` array of strings (`none` when the key is absent) and a
  `data` object, kept as the list of its entries in `for ... in` order.
  Property reads `response.data[id]` are association-list lookups.
* JavaScript numbers inside the time series are never inspected by the code;
  they are carried as integers.
* A promise is `pending`, `fulfilled` or `rejected`; settling a settled promise
  is a no-op.
* A JavaScript exception raised inside `main` is a `Completion.throw`; the
  state reached at the moment of the throw is kept next to it.
* `JSON.parse` is a parameter `parse : String → Option Response`; `none` is a
  `SyntaxError`.
* `console.log` calls are recorded in the `console` field of the state.
-/

namespace GPX

/-! ## Data model -/

/-- A JavaScript number carried inside a time series. -/
abbrev JSNumber := Int

/-- One value of `response.data`: the reading of a single GPU. -/
structure DeviceSample where
  id : String
  name : String
  engine_usage_timeseries : List JSNumber
  memory_usage_timeseries : List JSNumber
deriving DecidableEq, Repr

/-- Decoded body of a poll response. `errors = none` means that the object has
no `errors` key; `data` lists the entries of the `data` object in iteration
order. -/
structure Response where
  errors : Option (List String)
  data : List (String × DeviceSample)
deriving DecidableEq, Repr

/-- Object literal pushed onto `datasets`: `{label, data, borderWidth}`. -/
structure Dataset where
  label : String
  data : List JSNumber
  borderWidth : Nat
deriving DecidableEq, Repr

/-- The `data` member of a chart: `{labels, datasets}`. -/
structure ChartData where
  labels : List JSNumber
  datasets : List Dataset
deriving DecidableEq, Repr

/-- A chart object; `updates` counts the calls of its `update()` method. -/
structure Chart where
  data : ChartData
  updates : Nat
deriving DecidableEq, Repr

/-- One line written by `console.log`. -/
inductive LogEntry where
  | server (errors : List String)
  | errors (errors : List String)
  | gpu (series : List JSNumber)
deriving DecidableEq, Repr

/-- Component state (`this`) together with the console. -/
structure App where
  chart_engine : Chart
  chart_memory : Chart
  console : List LogEntry
deriving DecidableEq, Repr

/-- Value thrown inside `main`: a `TypeError` from reading a property of
`undefined`, or the rejection reason of an awaited promise. -/
inductive Thrown where
  | typeError
  | rejection (errors : List String)
deriving DecidableEq, Repr

/-- How a block of statements ends. -/
inductive Completion where
  | normal
  | throw (e : Thrown)
deriving DecidableEq, Repr

/-- State of the promise returned by `request`. -/
inductive PromiseState where
  | pending
  | fulfilled (value : Response)
  | rejected (reason : List String)
deriving DecidableEq, Repr

/-- Event delivered to the handlers installed on the XMLHttpRequest. A
`readystatechange` carries the values of `xhr.readyState`, `xhr.status` and
`xhr.responseText` at the time the handler runs. -/
inductive XhrEvent where
  | readystatechange (readyState status : Nat) (responseText : String)
  | error
deriving DecidableEq, Repr

/-! ## `buildCharts` -/

/-- Chart created by `new Chart(ctx, {type: 'line', data: {labels: [], datasets: []}, ...})`. -/
def newChart : Chart :=
  { data := { labels := [], datasets := [] }, updates := 0 }

/-- State after `buildCharts`: both charts freshly created. -/
def buildCharts : App :=
  { chart_engine := newChart, chart_memory := newChart, console := [] }

/-! ## `request` -/

/-- The function `resolve` of the promise. -/
def PromiseState.resolve (p : PromiseState) (value : Response) : PromiseState :=
  match p with
  | .pending => .fulfilled value
  | settled => settled

/-- The function `reject` of the promise. -/
def PromiseState.reject (p : PromiseState) (reason : List String) : PromiseState :=
  match p with
  | .pending => .rejected reason
  | settled => settled

/-- Appends a line to the console. -/
def App.log (s : App) (e : LogEntry) : App :=
  { s with console := s.console ++ [e] }

/-- One handler invocation: `xhr.onreadystatechange` or `xhr.onerror`. An
exception raised by `JSON.parse` ends the handler and leaves the promise as it
was. -/
def handleEvent (parse : String → Option Response) (sp : App × PromiseState) :
    XhrEvent → App × PromiseState
  | .readystatechange readyState status responseText =>
    if readyState = 4 ∧ status = 200 then
      match parse responseText with
      | none => sp
      | some json =>
        match json.errors with
        | some errs =>
          if errs.length ≠ 0 then
            (sp.1.log (.server errs), sp.2.resolve json)
          else
            (sp.1, sp.2.resolve json)
        | none => (sp.1, sp.2.resolve json)
    else
      sp
  | .error => (sp.1, sp.2.reject ["error during request: no connection"])

/-- The method `request`: a fresh promise, then the handlers run on every event
of the exchange, in order. -/
def request (parse : String → Option Response) (s : App) (exchange : List XhrEvent) :
    App × PromiseState :=
  exchange.foldl (handleEvent parse) (s, .pending)

/-! ## The loop body of `main` -/

/-- The statements `this.chart_engine.data.datasets = []` ... `this.chart_engine.data.labels = []`. -/
def resetCharts (s : App) : App :=
  { s with
    chart_engine := { s.chart_engine with data := { labels := [], datasets := [] } }
    chart_memory := { s.chart_memory with data := { labels := [], datasets := [] } } }

/-- Template literal of the dataset label. -/
def datasetLabel (gpu : DeviceSample) : String :=
  "[ " ++ gpu.id ++ " ] " ++ gpu.name

/-- Body of the `for ... in` loop once `gpu` is bound: one log line and one
`push` on each chart. -/
def pushDevice (s : App) (gpu : DeviceSample) : App :=
  let s1 := s.log (.gpu gpu.engine_usage_timeseries)
  { s1 with
    chart_engine := { s1.chart_engine with data := { s1.chart_engine.data with
      datasets := s1.chart_engine.data.datasets ++
        [{ label := datasetLabel gpu, data := gpu.engine_usage_timeseries, borderWidth := 2 }] } }
    chart_memory := { s1.chart_memory with data := { s1.chart_memory.data with
      datasets := s1.chart_memory.data.datasets ++
        [{ label := datasetLabel gpu, data := gpu.memory_usage_timeseries, borderWidth := 2 }] } } }

/-- The loop `for (const id in response.data)`, run over the remaining keys.
`response.data[id]` is a lookup; reading a property of `undefined` throws. -/
def forInData (response : Response) : List String → App → App × Completion
  | [], s => (s, .normal)
  | id :: ids, s =>
    match response.data.lookup id with
    | none => (s, .throw .typeError)
    | some gpu => forInData response ids (pushDevice s gpu)

/-- Body of the label loop: `labels.push(0)` on both charts. -/
def pushLabel (s : App) : App :=
  { s with
    chart_engine := { s.chart_engine with data := { s.chart_engine.data with
      labels := s.chart_engine.data.labels ++ [0] } }
    chart_memory := { s.chart_memory with data := { s.chart_memory.data with
      labels := s.chart_memory.data.labels ++ [0] } } }

/-- Runs the body of the label loop `n` times. -/
def pushLabels : Nat → App → App
  | 0, s => s
  | n + 1, s => pushLabels n (pushLabel s)

/-- The loop `for (let i = 0; i < this.chart_engine.data.datasets[0].data.length; i++)`.
The bound reads `datasets[0]`, which the body never changes, so it is read
once; when `datasets` is empty the first evaluation of the condition throws. -/
def fillLabels (s : App) : App × Completion :=
  match s.chart_engine.data.datasets with
  | [] => (s, .throw .typeError)
  | first :: _ => (pushLabels first.data.length s, .normal)

/-- The calls `this.chart_engine.update(); this.chart_memory.update()`. -/
def updateCharts (s : App) : App :=
  { s with
    chart_engine := { s.chart_engine with updates := s.chart_engine.updates + 1 }
    chart_memory := { s.chart_memory with updates := s.chart_memory.updates + 1 } }

/-- Statements of one iteration of `while (true)` after the awaited `request`
has produced `response`, up to (not including) `await this.sleep(.1)`. -/
def cycleBody (s : App) (response : Response) : App × Completion :=
  match response.errors with
  | none => (s, .throw .typeError)
  | some errs =>
    let s1 := if errs.length > 0 then s.log (.errors errs) else s
    let s2 := resetCharts s1
    match forInData response (response.data.map Prod.fst) s2 with
    | (s3, .throw e) => (s3, .throw e)
    | (s3, .normal) =>
      match fillLabels s3 with
      | (s4, .throw e) => (s4, .throw e)
      | (s4, .normal) => (updateCharts s4, .normal)

/-! ## The loop of `main` as a transition system -/

/-- Where the asynchronous function `main` stands.
* `polling`: at the top of the loop body, about to issue the request;
* `sleeping`: suspended in `await this.sleep(.1)`;
* `stalled`: suspended in `await this.request(...)` on a promise that stayed
  pending after the whole exchange;
* `terminated`: an exception left the loop and the promise of `main` is
  rejected. -/
inductive LoopState where
  | polling (s : App)
  | sleeping (s : App)
  | stalled (s : App)
  | terminated (s : App) (e : Thrown)
deriving DecidableEq, Repr

/-- One iteration of the loop, from the request to the sleep. -/
def cycle (parse : String → Option Response) (s : App) (exchange : List XhrEvent) :
    LoopState :=
  match request parse s exchange with
  | (s1, .pending) => .stalled s1
  | (s1, .rejected reason) => .terminated s1 (.rejection reason)
  | (s1, .fulfilled response) =>
    match cycleBody s1 response with
    | (s2, .normal) => .sleeping s2
    | (s2, .throw e) => .terminated s2 e

/-- Transition function of the loop. A polling state consumes the exchange of
its request; a sleeping state wakes up and polls again. -/
def step (parse : String → Option Response) : LoopState → List XhrEvent → LoopState
  | .polling s, exchange => cycle parse s exchange
  | .sleeping s, _ => .polling s
  | .stalled s, _ => .stalled s
  | .terminated s e, _ => .terminated s e

/-- The method `main` started in state `s`, run on the exchanges of its
successive requests: one poll cycle per exchange, each followed by the sleep,
until the exchanges run out (the loop is then about to poll again) or the
loop stalls or terminates. -/
def main (parse : String → Option Response) : App → List (List XhrEvent) → LoopState
  | s, [] => .polling s
  | s, exchange :: later =>
    match cycle parse s exchange with
    | .sleeping s2 => main parse s2 later
    | stopped => stopped

/-- Component state carried by a loop state. -/
def LoopState.app : LoopState → App
  | .polling s => s
  | .sleeping s => s
  | .stalled s => s
  | .terminated s _ => s

/-- Whether the loop is still alive (polling or sleeping). -/
def LoopState.running : LoopState → Bool
  | .polling _ => true
  | .sleeping _ => true
  | .stalled _ => false
  | .terminated _ _ => false

/-! ## Sample values -/

/-- The device of end-to-end scenario 1. -/
def rtx : DeviceSample :=
  { id := "0", name := "RTX", engine_usage_timeseries := [10, 20, 30],
    memory_usage_timeseries := [5, 6, 7] }

/-- A second device with series of other lengths. -/
def gtx : DeviceSample :=
  { id := "1", name := "GTX", engine_usage_timeseries := [1],
    memory_usage_timeseries := [2, 3] }

/-- Response of end-to-end scenario 1. -/
def scenario1 : Response := { errors := some [], data := [("0", rtx)] }

/-- A response with two devices and a server-reported error. -/
def twoDevices : Response := { errors := some ["nvml"], data := [("0", rtx), ("1", gtx)] }

/-- Scenario 1 with a server-reported error (end-to-end scenario 2). -/
def scenario2 : Response := { errors := some ["nvml"], data := [("0", rtx)] }

/-- A response object without an `errors` key. -/
def noErrorsKey : Response := { errors := none, data := [("0", rtx)] }

/-- A response without devices. -/
def noDevices : Response := { errors := some [], data := [] }

/-- A decoder defined on four bodies; every other text is malformed. -/
def sampleParse (text : String) : Option Response :=
  if text = "scenario1" then some scenario1
  else if text = "scenario2" then some scenario2
  else if text = "noErrorsKey" then some noErrorsKey
  else if text = "noDevices" then some noDevices
  else none

/-! ## Derived quantities used in the statements -/

/-- Dataset pushed onto the engine chart for `gpu`. -/
def engineDataset (gpu : DeviceSample) : Dataset :=
  { label := datasetLabel gpu, data := gpu.engine_usage_timeseries, borderWidth := 2 }

/-- Dataset pushed onto the memory chart for `gpu`. -/
def memoryDataset (gpu : DeviceSample) : Dataset :=
  { label := datasetLabel gpu, data := gpu.memory_usage_timeseries, borderWidth := 2 }

/-- Devices met by the `for ... in` loop: the value found under each key. -/
def visited (response : Response) : List DeviceSample :=
  (response.data.map Prod.fst).filterMap fun id => response.data.lookup id

/-- Number of x-axis labels produced for the visited devices. -/
def labelCount : List DeviceSample → Nat
  | [] => 0
  | first :: _ => first.engine_usage_timeseries.length

/-- State of the loop body right before the label loop. -/
def beforeLabels (s : App) (response : Response) (errs : List String) : App :=
  (visited response).foldl pushDevice
    (resetCharts (if errs.length > 0 then s.log (.errors errs) else s))

/-- A `readystatechange` delivered while `xhr.status` is not 200. -/
def XhrEvent.otherStatus : XhrEvent → Bool
  | .readystatechange _ status _ => status != 200
  | .error => false

/-- The hook `mounted` once `buildCharts` and the warm-up sleep are over: it
calls `this.main()` without awaiting it, so the loop starts polling and an
exception leaving `main` is not caught by the hook. -/
def mounted : LoopState := .polling buildCharts

/-! ## Auxiliary facts about the loop body -/

theorem lookup_isSome_of_mem (l : List (String × DeviceSample)) (k : String)
    (h : k ∈ l.map Prod.fst) : (l.lookup k).isSome = true := by
  induction l with
  | nil => simp at h
  | cons e l ih =>
    obtain ⟨k1, v1⟩ := e
    by_cases hk : k = k1
    · subst hk
      simp [List.lookup]
    · have hne : (k == k1) = false := by simpa using hk
      have hmem : k ∈ l.map Prod.fst := by
        simp only [List.map_cons, List.mem_cons] at h
        rcases h with h | h
        · exact absurd h hk
        · exact h
      simp [List.lookup, hne, ih hmem]

theorem lookup_cons_ne (k k1 : String) (v1 : DeviceSample)
    (l : List (String × DeviceSample)) (h : k ≠ k1) :
    List.lookup k ((k1, v1) :: l) = l.lookup k := by
  have hne : (k == k1) = false := by simpa using h
  simp [List.lookup, hne]

theorem lookup_cons_self (k1 : String) (v1 : DeviceSample)
    (l : List (String × DeviceSample)) :
    List.lookup k1 ((k1, v1) :: l) = some v1 := by
  simp [List.lookup]

theorem filterMap_lookup_of_nodup (l : List (String × DeviceSample))
    (h : (l.map Prod.fst).Nodup) :
    (l.map Prod.fst).filterMap (fun id => l.lookup id) = l.map Prod.snd := by
  induction l with
  | nil => rfl
  | cons e l ih =>
    obtain ⟨k1, v1⟩ := e
    simp only [List.map_cons, List.nodup_cons] at h
    obtain ⟨hnot, hnd⟩ := h
    have hcongr : (l.map Prod.fst).filterMap (fun id => List.lookup id ((k1, v1) :: l))
        = (l.map Prod.fst).filterMap (fun id => l.lookup id) := by
      apply List.filterMap_congr
      intro k hk
      exact lookup_cons_ne k k1 v1 l (fun hEq => hnot (hEq ▸ hk))
    rw [List.map_cons, List.filterMap_cons, lookup_cons_self, hcongr, ih hnd]
    rfl

theorem visited_of_nodup (response : Response)
    (h : (response.data.map Prod.fst).Nodup) :
    visited response = response.data.map Prod.snd :=
  filterMap_lookup_of_nodup response.data h

theorem forInData_eq (response : Response) (ks : List String) (s : App)
    (h : ∀ k ∈ ks, (response.data.lookup k).isSome = true) :
    forInData response ks s
      = ((ks.filterMap fun id => response.data.lookup id).foldl pushDevice s, .normal) := by
  induction ks generalizing s with
  | nil => rfl
  | cons k ks ih =>
    have hk := h k (List.mem_cons_self _ _)
    obtain ⟨gpu, hgpu⟩ := Option.isSome_iff_exists.mp hk
    have hrest : ∀ k2 ∈ ks, (response.data.lookup k2).isSome = true :=
      fun k2 hk2 => h k2 (List.mem_cons_of_mem _ hk2)
    simp only [forInData, hgpu, List.filterMap_cons, List.foldl_cons]
    exact ih _ hrest

theorem forInData_keys (response : Response) (s : App) :
    forInData response (response.data.map Prod.fst) s
      = ((visited response).foldl pushDevice s, .normal) :=
  forInData_eq response _ s (fun k hk => lookup_isSome_of_mem response.data k hk)

theorem foldl_pushDevice_engine (ds : List DeviceSample) (s : App) :
    (ds.foldl pushDevice s).chart_engine.data
      = { labels := s.chart_engine.data.labels,
          datasets := s.chart_engine.data.datasets ++ ds.map engineDataset } := by
  induction ds generalizing s with
  | nil => simp
  | cons d ds ih =>
    rw [List.foldl_cons, ih]
    simp [pushDevice, App.log, engineDataset]

theorem foldl_pushDevice_memory (ds : List DeviceSample) (s : App) :
    (ds.foldl pushDevice s).chart_memory.data
      = { labels := s.chart_memory.data.labels,
          datasets := s.chart_memory.data.datasets ++ ds.map memoryDataset } := by
  induction ds generalizing s with
  | nil => simp
  | cons d ds ih =>
    rw [List.foldl_cons, ih]
    simp [pushDevice, App.log, memoryDataset]

theorem pushLabels_engine (n : Nat) (s : App) :
    (pushLabels n s).chart_engine.data
      = { labels := s.chart_engine.data.labels ++ List.replicate n 0,
          datasets := s.chart_engine.data.datasets } := by
  induction n generalizing s with
  | zero => simp [pushLabels]
  | succ n ih =>
    rw [pushLabels, ih]
    simp [pushLabel, List.replicate_succ]

theorem pushLabels_memory (n : Nat) (s : App) :
    (pushLabels n s).chart_memory.data
      = { labels := s.chart_memory.data.labels ++ List.replicate n 0,
          datasets := s.chart_memory.data.datasets } := by
  induction n generalizing s with
  | zero => simp [pushLabels]
  | succ n ih =>
    rw [pushLabels, ih]
    simp [pushLabel, List.replicate_succ]

theorem beforeLabels_engine (s : App) (response : Response) (errs : List String) :
    (beforeLabels s response errs).chart_engine.data
      = { labels := [], datasets := (visited response).map engineDataset } := by
  rw [beforeLabels, foldl_pushDevice_engine]
  simp [resetCharts]

theorem beforeLabels_memory (s : App) (response : Response) (errs : List String) :
    (beforeLabels s response errs).chart_memory.data
      = { labels := [], datasets := (visited response).map memoryDataset } := by
  rw [beforeLabels, foldl_pushDevice_memory]
  simp [resetCharts]

theorem cycleBody_of_errors (s : App) (response : Response) (errs : List String)
    (h : response.errors = some errs) :
    cycleBody s response
      = match fillLabels (beforeLabels s response errs) with
        | (s4, .throw e) => (s4, .throw e)
        | (s4, .normal) => (updateCharts s4, .normal) := by
  simp only [cycleBody, h, forInData_keys, beforeLabels]

theorem cycleBody_empty (s : App) (response : Response) (errs : List String)
    (h : response.errors = some errs) (hv : visited response = []) :
    cycleBody s response = (beforeLabels s response errs, .throw .typeError) := by
  have hd : (beforeLabels s response errs).chart_engine.data.datasets = [] := by
    rw [beforeLabels_engine, hv]
    rfl
  rw [cycleBody_of_errors s response errs h]
  simp only [fillLabels, hd]

theorem cycleBody_cons (s : App) (response : Response) (errs : List String)
    (first : DeviceSample) (rest : List DeviceSample)
    (h : response.errors = some errs) (hv : visited response = first :: rest) :
    cycleBody s response
      = (updateCharts (pushLabels first.engine_usage_timeseries.length
          (beforeLabels s response errs)), .normal) := by
  have hd : (beforeLabels s response errs).chart_engine.data.datasets
      = engineDataset first :: rest.map engineDataset := by
    rw [beforeLabels_engine, hv]
    rfl
  rw [cycleBody_of_errors s response errs h]
  simp only [fillLabels, hd, engineDataset]

theorem cycleBody_engine (s : App) (response : Response) (errs : List String)
    (h : response.errors = some errs) :
    (cycleBody s response).1.chart_engine.data
      = { labels := List.replicate (labelCount (visited response)) 0,
          datasets := (visited response).map engineDataset } := by
  cases hv : visited response with
  | nil =>
    rw [cycleBody_empty s response errs h hv, beforeLabels_engine, hv]
    rfl
  | cons first rest =>
    rw [cycleBody_cons s response errs first rest h hv]
    show (pushLabels _ _).chart_engine.data = _
    rw [pushLabels_engine, beforeLabels_engine, hv]
    simp [labelCount]

theorem cycleBody_memory (s : App) (response : Response) (errs : List String)
    (h : response.errors = some errs) :
    (cycleBody s response).1.chart_memory.data
      = { labels := List.replicate (labelCount (visited response)) 0,
          datasets := (visited response).map memoryDataset } := by
  cases hv : visited response with
  | nil =>
    rw [cycleBody_empty s response errs h hv, beforeLabels_memory, hv]
    rfl
  | cons first rest =>
    rw [cycleBody_cons s response errs first rest h hv]
    show (pushLabels _ _).chart_memory.data = _
    rw [pushLabels_memory, beforeLabels_memory, hv]
    simp [labelCount]

theorem visited_ne_nil (response : Response) (h : response.data ≠ []) :
    visited response ≠ [] := by
  cases hd : response.data with
  | nil => exact absurd hd h
  | cons e l =>
    obtain ⟨k1, v1⟩ := e
    simp [visited, hd, lookup_cons_self]

theorem visited_head (response : Response) (k : String) (d : DeviceSample)
    (rest : List (String × DeviceSample)) (h : response.data = (k, d) :: rest) :
    ∃ tail, visited response = d :: tail := by
  simp [visited, h, lookup_cons_self]

theorem cycleBody_normal (s : App) (response : Response) (errs : List String)
    (h : response.errors = some errs) (hd : response.data ≠ []) :
    (cycleBody s response).2 = .normal := by
  cases hv : visited response with
  | nil => exact absurd hv (visited_ne_nil response hd)
  | cons first rest => rw [cycleBody_cons s response errs first rest h hv]

theorem handleEvent_engine (parse : String → Option Response) (sp : App × PromiseState)
    (ev : XhrEvent) : (handleEvent parse sp ev).1.chart_engine = sp.1.chart_engine := by
  cases ev with
  | error => rfl
  | readystatechange readyState status responseText =>
    simp only [handleEvent]
    split
    · split
      · rfl
      · split
        · split <;> rfl
        · rfl
    · rfl

theorem handleEvent_memory (parse : String → Option Response) (sp : App × PromiseState)
    (ev : XhrEvent) : (handleEvent parse sp ev).1.chart_memory = sp.1.chart_memory := by
  cases ev with
  | error => rfl
  | readystatechange readyState status responseText =>
    simp only [handleEvent]
    split
    · split
      · rfl
      · split
        · split <;> rfl
        · rfl
    · rfl

theorem foldl_handleEvent_charts (parse : String → Option Response)
    (exchange : List XhrEvent) (sp : App × PromiseState) :
    (exchange.foldl (handleEvent parse) sp).1.chart_engine = sp.1.chart_engine ∧
    (exchange.foldl (handleEvent parse) sp).1.chart_memory = sp.1.chart_memory := by
  induction exchange generalizing sp with
  | nil => exact ⟨rfl, rfl⟩
  | cons ev evs ih =>
    rw [List.foldl_cons]
    exact ⟨(ih _).1.trans (handleEvent_engine parse sp ev),
      (ih _).2.trans (handleEvent_memory parse sp ev)⟩

theorem request_charts (parse : String → Option Response) (s : App)
    (exchange : List XhrEvent) :
    (request parse s exchange).1.chart_engine = s.chart_engine ∧
    (request parse s exchange).1.chart_memory = s.chart_memory :=
  foldl_handleEvent_charts parse exchange (s, .pending)

theorem cycle_of_fulfilled (parse : String → Option Response) (s : App)
    (exchange : List XhrEvent) (response : Response)
    (h : (request parse s exchange).2 = .fulfilled response) :
    cycle parse s exchange
      = match cycleBody (request parse s exchange).1 response with
        | (s2, .normal) => .sleeping s2
        | (s2, .throw e) => .terminated s2 e := by
  rw [cycle]
  generalize request parse s exchange = q at h
  obtain ⟨s1, p⟩ := q
  simp only at h
  subst h
  rfl

theorem cycle_of_rejected (parse : String → Option Response) (s : App)
    (exchange : List XhrEvent) (reason : List String)
    (h : (request parse s exchange).2 = .rejected reason) :
    cycle parse s exchange = .terminated (request parse s exchange).1 (.rejection reason) := by
  rw [cycle]
  generalize request parse s exchange = q at h
  obtain ⟨s1, p⟩ := q
  simp only at h
  subst h
  rfl

theorem cycle_sleeping (parse : String → Option Response) (s : App)
    (exchange : List XhrEvent) (response : Response) (errs : List String)
    (hreq : (request parse s exchange).2 = .fulfilled response)
    (herr : response.errors = some errs) (hdata : response.data ≠ []) :
    cycle parse s exchange = .sleeping (cycleBody (request parse s exchange).1 response).1 := by
  rw [cycle_of_fulfilled parse s exchange response hreq]
  have hn := cycleBody_normal (request parse s exchange).1 response errs herr hdata
  generalize cycleBody (request parse s exchange).1 response = q at hn
  obtain ⟨s2, c⟩ := q
  simp only at hn
  subst hn
  rfl

theorem handleEvent_otherStatus (parse : String → Option Response)
    (sp : App × PromiseState) (ev : XhrEvent) (h : ev.otherStatus = true) :
    handleEvent parse sp ev = sp := by
  cases ev with
  | error => simp [XhrEvent.otherStatus] at h
  | readystatechange readyState status responseText =>
    have hne : status ≠ 200 := by simpa [XhrEvent.otherStatus] using h
    simp [handleEvent, hne]

theorem foldl_handleEvent_otherStatus (parse : String → Option Response)
    (exchange : List XhrEvent) (sp : App × PromiseState)
    (h : exchange.all XhrEvent.otherStatus = true) :
    exchange.foldl (handleEvent parse) sp = sp := by
  induction exchange with
  | nil => rfl
  | cons ev evs ih =>
    simp only [List.all_cons, Bool.and_eq_true] at h
    rw [List.foldl_cons, handleEvent_otherStatus parse sp ev h.1]
    exact ih h.2

/-- A status-200 response whose body `JSON.parse` refuses: the handler throws
and the promise stays pending. -/
theorem request_malformed_body (parse : String → Option Response) (s : App)
    (body : String) (h : parse body = none) :
    request parse s [.readystatechange 4 200 body] = (s, .pending) := by
  simp [request, handleEvent, h]

/-- A connection error: `readyState` 4 with status 0, then `onerror`. -/
theorem request_connection_error (parse : String → Option Response) (s : App)
    (body : String) :
    request parse s [.readystatechange 4 0 body, .error]
      = (s, .rejected ["error during request: no connection"]) := by
  simp [request, handleEvent, PromiseState.reject]

/-- A status-200 response with a decodable body fulfils the promise with the
decoded object, whatever its `errors` list. -/
theorem request_ok (parse : String → Option Response) (s : App)
    (body : String) (response : Response) (h : parse body = some response) :
    (request parse s [.readystatechange 4 200 body]).2 = .fulfilled response := by
  simp only [request, List.foldl_cons, List.foldl_nil, handleEvent, h, and_self, if_true]
  split
  · split <;> rfl
  · rfl

/-- On a response without devices the loop of `main` ends terminated. -/
theorem no_devices_terminates_loop :
    (step sampleParse mounted [.readystatechange 4 200 "noDevices"]).running = false := by
  decide

/-! ## The claims -/

/-- C1: for a snapshot with an `errors` list whose `data` object holds `N`
devices, the loop body leaves exactly `N` datasets on the engine chart and `N`
on the memory chart, and the `i`-th dataset carries the `i`-th device's engine
(respectively memory) time series unchanged. -/
theorem datasets_one_per_device (s : App) (response : Response) (errs : List String)
    (herr : response.errors = some errs)
    (hkeys : (response.data.map Prod.fst).Nodup) :
    (cycleBody s response).1.chart_engine.data.datasets.length = response.data.length ∧
    (cycleBody s response).1.chart_memory.data.datasets.length = response.data.length ∧
    ∀ (i : Nat) (hi : i < response.data.length),
      ((cycleBody s response).1.chart_engine.data.datasets[i]?).map Dataset.data
        = some (response.data[i]).2.engine_usage_timeseries ∧
      ((cycleBody s response).1.chart_memory.data.datasets[i]?).map Dataset.data
        = some (response.data[i]).2.memory_usage_timeseries := by
  rw [cycleBody_engine s response errs herr, cycleBody_memory s response errs herr,
    visited_of_nodup response hkeys]
  refine ⟨by simp, by simp, ?_⟩
  intro i hi
  simp [List.getElem?_map, List.getElem?_eq_getElem hi, engineDataset, memoryDataset]

/-- Witness of C1 on the two-device response. -/
theorem datasets_one_per_device_witness :
    (cycleBody buildCharts twoDevices).1.chart_engine.data.datasets.length = 2 ∧
    (cycleBody buildCharts twoDevices).1.chart_memory.data.datasets.length = 2 :=
  ⟨(datasets_one_per_device buildCharts twoDevices ["nvml"] rfl (by decide)).1,
   (datasets_one_per_device buildCharts twoDevices ["nvml"] rfl (by decide)).2.1⟩

/-- C2: the label of every dataset, on both charts, is the text
`"[ " ++ id ++ " ] " ++ name` built from the `id` and `name` of its device. -/
theorem dataset_labels (s : App) (response : Response) (errs : List String)
    (herr : response.errors = some errs)
    (hkeys : (response.data.map Prod.fst).Nodup) :
    (cycleBody s response).1.chart_engine.data.datasets.map Dataset.label
      = response.data.map (fun entry => "[ " ++ entry.2.id ++ " ] " ++ entry.2.name) ∧
    (cycleBody s response).1.chart_memory.data.datasets.map Dataset.label
      = response.data.map (fun entry => "[ " ++ entry.2.id ++ " ] " ++ entry.2.name) := by
  rw [cycleBody_engine s response errs herr, cycleBody_memory s response errs herr,
    visited_of_nodup response hkeys]
  constructor <;>
    simp [List.map_map, Function.comp_def, engineDataset, memoryDataset, datasetLabel]

/-- Witness of C2 on scenario 1: the label is `"[ 0 ] RTX"`. -/
theorem dataset_labels_witness :
    (cycleBody buildCharts scenario1).1.chart_engine.data.datasets.map Dataset.label
      = scenario1.data.map (fun entry => "[ " ++ entry.2.id ++ " ] " ++ entry.2.name) :=
  (dataset_labels buildCharts scenario1 [] rfl (by decide)).1

/-- C3: for a snapshot with an `errors` list and at least one device, the loop
body completes, completes again when run on its own result with the same
snapshot, and the second run leaves the labels and datasets of both charts as
the first run left them. -/
theorem cycleBody_idempotent (s : App) (response : Response) (errs : List String)
    (herr : response.errors = some errs) (hdata : response.data ≠ []) :
    (cycleBody s response).2 = .normal ∧
    (cycleBody (cycleBody s response).1 response).2 = .normal ∧
    (cycleBody (cycleBody s response).1 response).1.chart_engine.data
      = (cycleBody s response).1.chart_engine.data ∧
    (cycleBody (cycleBody s response).1 response).1.chart_memory.data
      = (cycleBody s response).1.chart_memory.data := by
  refine ⟨cycleBody_normal s response errs herr hdata,
    cycleBody_normal _ response errs herr hdata, ?_, ?_⟩
  · rw [cycleBody_engine _ response errs herr, cycleBody_engine s response errs herr]
  · rw [cycleBody_memory _ response errs herr, cycleBody_memory s response errs herr]

/-- Witness of C3 on the two-device response. -/
theorem cycleBody_idempotent_witness :
    (cycleBody (cycleBody buildCharts twoDevices).1 twoDevices).1.chart_engine.data
      = (cycleBody buildCharts twoDevices).1.chart_engine.data :=
  (cycleBody_idempotent buildCharts twoDevices ["nvml"] rfl (by decide)).2.2.1

/-- C4: for a snapshot with an `errors` list whose first device is `first`,
the labels of the engine chart and of the memory chart are both the list of
`first.engine_usage_timeseries.length` zeros, whatever the other series are. -/
theorem labels_from_first_engine_series (s : App) (response : Response)
    (errs : List String) (key : String) (first : DeviceSample)
    (rest : List (String × DeviceSample))
    (herr : response.errors = some errs)
    (hdata : response.data = (key, first) :: rest) :
    (cycleBody s response).1.chart_engine.data.labels
      = List.replicate first.engine_usage_timeseries.length 0 ∧
    (cycleBody s response).1.chart_memory.data.labels
      = List.replicate first.engine_usage_timeseries.length 0 := by
  obtain ⟨tail, hv⟩ := visited_head response key first rest hdata
  rw [cycleBody_engine s response errs herr, cycleBody_memory s response errs herr, hv]
  exact ⟨rfl, rfl⟩

/-- Witness of C4: the engine series `[10, 20, 30]` of scenario 1 gives three
placeholder labels on both charts. -/
theorem labels_from_first_engine_series_witness :
    (cycleBody buildCharts scenario1).1.chart_engine.data.labels = [0, 0, 0] ∧
    (cycleBody buildCharts scenario1).1.chart_memory.data.labels = [0, 0, 0] :=
  labels_from_first_engine_series buildCharts scenario1 [] "0" rtx [] rfl rfl

/-- C5: two poll cycles started from the same state whose requests are
fulfilled with snapshots that share their `data` (at least one device) and
carry arbitrary `errors` lists both reach the sleep, with the same labels and
datasets on the engine chart and on the memory chart. -/
theorem server_errors_do_not_affect_charts (parse : String → Option Response) (s : App)
    (exchange1 exchange2 : List XhrEvent) (response1 response2 : Response)
    (errs1 errs2 : List String)
    (hreq1 : (request parse s exchange1).2 = .fulfilled response1)
    (hreq2 : (request parse s exchange2).2 = .fulfilled response2)
    (herr1 : response1.errors = some errs1) (herr2 : response2.errors = some errs2)
    (hsame : response1.data = response2.data) (hdata : response1.data ≠ []) :
    ∃ after1 after2 : App,
      cycle parse s exchange1 = .sleeping after1 ∧
      cycle parse s exchange2 = .sleeping after2 ∧
      after1.chart_engine.data = after2.chart_engine.data ∧
      after1.chart_memory.data = after2.chart_memory.data := by
  have hdata2 : response2.data ≠ [] := hsame ▸ hdata
  have hv : visited response1 = visited response2 := by
    simp only [visited, hsame]
  refine ⟨_, _, cycle_sleeping parse s exchange1 response1 errs1 hreq1 herr1 hdata,
    cycle_sleeping parse s exchange2 response2 errs2 hreq2 herr2 hdata2, ?_, ?_⟩
  · rw [cycleBody_engine _ response1 errs1 herr1, cycleBody_engine _ response2 errs2 herr2, hv]
  · rw [cycleBody_memory _ response1 errs1 herr1, cycleBody_memory _ response2 errs2 herr2, hv]

/-- Witness of C5: scenario 1 against scenario 2, which differs from it by a
non-empty `errors` list only. -/
theorem server_errors_do_not_affect_charts_witness :
    ∃ after1 after2 : App,
      cycle sampleParse buildCharts [.readystatechange 4 200 "scenario1"]
        = .sleeping after1 ∧
      cycle sampleParse buildCharts [.readystatechange 4 200 "scenario2"]
        = .sleeping after2 ∧
      after1.chart_engine.data = after2.chart_engine.data ∧
      after1.chart_memory.data = after2.chart_memory.data :=
  server_errors_do_not_affect_charts sampleParse buildCharts
    [.readystatechange 4 200 "scenario1"] [.readystatechange 4 200 "scenario2"]
    scenario1 scenario2 [] ["nvml"] (by decide) (by decide) rfl rfl rfl (by decide)

/-- C6: when the promise of `request` is rejected, the poll cycle ends with the
labels and datasets of both charts exactly as they were before the cycle. -/
theorem rejected_request_keeps_charts (parse : String → Option Response) (s : App)
    (exchange : List XhrEvent) (reason : List String)
    (hreq : (request parse s exchange).2 = .rejected reason) :
    (cycle parse s exchange).app.chart_engine.data.datasets = s.chart_engine.data.datasets ∧
    (cycle parse s exchange).app.chart_engine.data.labels = s.chart_engine.data.labels ∧
    (cycle parse s exchange).app.chart_memory.data.datasets = s.chart_memory.data.datasets ∧
    (cycle parse s exchange).app.chart_memory.data.labels = s.chart_memory.data.labels := by
  rw [cycle_of_rejected parse s exchange reason hreq]
  simp only [LoopState.app, (request_charts parse s exchange).1,
    (request_charts parse s exchange).2, and_self]

/-- Witness of C6: a connection error after a first rendered cycle. -/
theorem rejected_request_keeps_charts_witness :
    (cycle sampleParse (cycleBody buildCharts scenario1).1
        [.readystatechange 4 0 "", .error]).app.chart_engine.data.datasets
      = (cycleBody buildCharts scenario1).1.chart_engine.data.datasets :=
  (rejected_request_keeps_charts sampleParse (cycleBody buildCharts scenario1).1
    [.readystatechange 4 0 "", .error] ["error during request: no connection"]
    (by decide)).1

/-- C7, as stated, fails: from the state in which `mounted` starts the loop, a
poll cycle whose request meets a connection error leaves the loop terminated,
and `main` never issues the request of the following cycle. -/
theorem connection_error_terminates_loop :
    step sampleParse mounted [.readystatechange 4 0 "", .error]
      = .terminated buildCharts (.rejection ["error during request: no connection"]) ∧
    (step sampleParse mounted [.readystatechange 4 0 "", .error]).running = false ∧
    main sampleParse buildCharts
        [[.readystatechange 4 0 "", .error], [.readystatechange 4 200 "scenario1"]]
      = .terminated buildCharts (.rejection ["error during request: no connection"]) := by
  decide

/-- C7, amended: a poll cycle whose request is fulfilled with a snapshot that
carries an `errors` list (empty or not) and at least one device reaches the
sleep, and the loop then polls again; a poll cycle whose request is rejected
ends the loop with the rejection reason. -/
theorem only_rejection_terminates_loop (parse : String → Option Response) (s : App)
    (exchange : List XhrEvent) :
    (∀ (response : Response) (errs : List String),
      (request parse s exchange).2 = .fulfilled response →
      response.errors = some errs → response.data ≠ [] →
      ∃ after : App,
        step parse (.polling s) exchange = .sleeping after ∧
        ∀ next : List XhrEvent, step parse (.sleeping after) next = .polling after) ∧
    (∀ reason : List String,
      (request parse s exchange).2 = .rejected reason →
      step parse (.polling s) exchange
        = .terminated (request parse s exchange).1 (.rejection reason)) := by
  constructor
  · intro response errs hreq herr hdata
    exact ⟨_, cycle_sleeping parse s exchange response errs hreq herr hdata, fun _ => rfl⟩
  · intro reason hreq
    exact cycle_of_rejected parse s exchange reason hreq

/-- Witness of amended C7: scenario 2 (non-empty `errors`) reaches the sleep. -/
theorem only_rejection_terminates_loop_witness :
    ∃ after : App,
      step sampleParse (.polling buildCharts) [.readystatechange 4 200 "scenario2"]
        = .sleeping after ∧
      ∀ next : List XhrEvent, step sampleParse (.sleeping after) next = .polling after :=
  (only_rejection_terminates_loop sampleParse buildCharts
    [.readystatechange 4 200 "scenario2"]).1 scenario2 ["nvml"]
    (by decide) rfl (by decide)

/-- C8 fails on the code: when every event of the exchange is a
`readystatechange` with a status other than 200 (a completed 404 response, for
one), the promise of `request` stays pending, neither fulfilled nor rejected,
and the poll cycle waiting for it stalls. -/
theorem request_other_status_stays_pending (parse : String → Option Response) (s : App)
    (exchange : List XhrEvent) (hstatus : exchange.all XhrEvent.otherStatus = true) :
    request parse s exchange = (s, .pending) ∧
    cycle parse s exchange = .stalled s := by
  have hreq : request parse s exchange = (s, .pending) := by
    rw [request]
    exact foldl_handleEvent_otherStatus parse exchange (s, .pending) hstatus
  exact ⟨hreq, by rw [cycle, hreq]⟩

/-- Witness of the C8 divergence: a complete exchange with status 404. -/
theorem request_other_status_stays_pending_witness :
    request sampleParse buildCharts
        [.readystatechange 2 404 "", .readystatechange 3 404 "Not",
         .readystatechange 4 404 "Not Found"]
      = (buildCharts, .pending) ∧
    cycle sampleParse buildCharts
        [.readystatechange 2 404 "", .readystatechange 3 404 "Not",
         .readystatechange 4 404 "Not Found"]
      = .stalled buildCharts :=
  request_other_status_stays_pending sampleParse buildCharts
    [.readystatechange 2 404 "", .readystatechange 3 404 "Not",
     .readystatechange 4 404 "Not Found"] (by decide)

/-- C9 fails on the code: on a snapshot without devices the loop body resets
both charts and then throws at the condition of the label loop. -/
theorem cycleBody_no_devices_throws (s : App) (errs : List String) :
    (cycleBody s { errors := some errs, data := [] }).2 = .throw .typeError ∧
    (cycleBody s { errors := some errs, data := [] }).1.chart_engine.data
      = { labels := [], datasets := [] } ∧
    (cycleBody s { errors := some errs, data := [] }).1.chart_memory.data
      = { labels := [], datasets := [] } := by
  have hv : visited { errors := some errs, data := [] } = [] := rfl
  rw [cycleBody_empty s _ errs rfl hv, beforeLabels_engine, beforeLabels_memory, hv]
  exact ⟨rfl, rfl, rfl⟩

/-- C10: for a decoded response object without an `errors` key, `request`
fulfils its promise with that object and writes nothing, while the loop body of
`main` throws at `response.errors.length` with the state untouched, so the poll
cycle ends terminated with every chart field as before the cycle. -/
theorem missing_errors_key (parse : String → Option Response) (s : App)
    (body : String) (response : Response)
    (hparse : parse body = some response) (hkey : response.errors = none) :
    request parse s [.readystatechange 4 200 body] = (s, .fulfilled response) ∧
    cycleBody s response = (s, .throw .typeError) ∧
    cycle parse s [.readystatechange 4 200 body] = .terminated s .typeError := by
  have hreq : request parse s [.readystatechange 4 200 body] = (s, .fulfilled response) := by
    simp [request, handleEvent, hparse, hkey, PromiseState.resolve]
  have hbody : cycleBody s response = (s, .throw .typeError) := by
    simp [cycleBody, hkey]
  exact ⟨hreq, hbody, by rw [cycle, hreq]; simp only [hbody]⟩

/-- Witness of C10 after a first rendered cycle. -/
theorem missing_errors_key_witness :
    request sampleParse (cycleBody buildCharts scenario1).1
        [.readystatechange 4 200 "noErrorsKey"]
      = ((cycleBody buildCharts scenario1).1, .fulfilled noErrorsKey) ∧
    cycleBody (cycleBody buildCharts scenario1).1 noErrorsKey
      = ((cycleBody buildCharts scenario1).1, .throw .typeError) ∧
    cycle sampleParse (cycleBody buildCharts scenario1).1
        [.readystatechange 4 200 "noErrorsKey"]
      = .terminated (cycleBody buildCharts scenario1).1 .typeError :=
  missing_errors_key sampleParse (cycleBody buildCharts scenario1).1 "noErrorsKey"
    noErrorsKey (by decide) rfl

end GPX
